import Mathlib

/-!
# Verification of the user-account API contract

A shallow embedding of the user-account HTTP API of this repository
(registration, token issuance, self-management), together with theorems
checking the specification's claims against it.

The repository ships only the test suite (`app/users/test/test_user_api.py`)
and the URL routing table (`app/users/urls.py`); the request handlers,
serializers and user model live in framework code and application modules
outside the shipped sources.  The endpoint behaviour below is therefore
modelled from the specification's contract (sections 3, 4 and 6 of the spec),
and each such definition says so in its doc comment.  The duplicate-test-name
claim concerns the shipped test file itself and is embedded directly from it.
-/

namespace UserApi

/-- Modelled from the spec: an `Account` record — "email, hashed password,
display name, flags" (`is_active` / `is_staff`), spec section 3. -/
structure Account where
  email : String
  passwordHash : String
  name : String
  isActive : Bool
  isStaff : Bool
deriving Repr, DecidableEq

/-- The user record store: the list of persisted accounts. -/
abbrev Store := List Account

/-- An HTTP response: a status code and a body of key/value pairs. -/
structure Response where
  status : Nat
  body : List (String × String)
deriving Repr, DecidableEq

/-- The uniform "bad request" response: status 400, empty body (in
particular no `token` and no `password` key). -/
def badRequest : Response := ⟨400, []⟩

/-- Modelled from the spec: the one-way password hashing primitive (an
"external collaborator supplied by the platform").  Modelled as an injective
tagging function so that `checkPassword` verifies exactly the submitted
plaintext. -/
def hashPassword (p : String) : String := "hash$" ++ p

/-- Verify a plaintext password against a stored hash (the platform's
`check_password`). -/
def checkPassword (hash plain : String) : Bool := hash == hashPassword plain

/-- Modelled from the spec: the token issuer binds an opaque token 1:1 to an
account; modelled as a tagging function of the account's unique email. -/
def tokenFor (email : String) : String := "tok$" ++ email

/-- Modelled from the spec: "must be a syntactically valid email address"
(spec section 3).  Modelled minimally: a nonempty local part, exactly one
`@`, and a domain containing a dot. -/
def validEmail (e : String) : Bool :=
  let cs := e.toList
  let lp := cs.takeWhile (fun c => c != '@')
  match cs.dropWhile (fun c => c != '@') with
  | '@' :: dp => !lp.isEmpty && dp.contains '.' && !dp.contains '@'
  | _ => false

/-- Modelled from the spec: the Create-Account endpoint (spec section 4.1).
"Validates email format and uniqueness, password minimum length (>5 chars).
On success: creates an Account with hashed password; responds with the created
resource's non-secret fields (excludes password) and a created status.  On
failure: a bad request status and no account is created." -/
def createAccount (db : Store) (email password name : String) :
    Response × Store :=
  if validEmail email && decide (5 < password.length)
      && db.all (fun a => a.email != email) then
    (⟨201, [("email", email), ("name", name)]⟩,
     db ++ [⟨email, hashPassword password, name, true, false⟩])
  else
    (badRequest, db)

/-- Modelled from the spec: the Authenticate (token) endpoint (spec section
4.2).  "Looks up Account by email; verifies password against stored hash.
On match and `is_active`: issues an AuthToken; responds OK with `{token}`.
On mismatch, missing account, or missing/empty required field: responds bad
request; body must NOT contain a `token` key." -/
def authenticate (db : Store) (email password : String) : Response :=
  if email == "" || password == "" then badRequest
  else
    match db.find? (fun a => a.email == email) with
    | some a =>
        if checkPassword a.passwordHash password && a.isActive then
          ⟨200, [("token", tokenFor a.email)]⟩
        else badRequest
    | none => badRequest

/-- The HTTP methods exercised on the self-management endpoint. -/
inductive Method where
  | GET
  | PATCH
  | POST
deriving Repr, DecidableEq

/-- Modelled from the spec: resolve the request's bearer token back to the
account it is bound to ("given a token, resolves it back to a user"). -/
def resolveToken (db : Store) (auth : Option String) : Option Account :=
  match auth with
  | some t => db.find? (fun a => tokenFor a.email == t)
  | none => none

/-- Modelled from the spec: apply a PATCH body to an account — "accepts any
subset of `{name, password}`; updates only provided fields; if `password`
provided, re-hashes and stores it" (spec section 4.3). -/
def applyPatch (a : Account) (body : List (String × String)) : Account :=
  let a1 := match body.lookup "name" with
    | some n => { a with name := n }
    | none => a
  match body.lookup "password" with
  | some p => { a1 with passwordHash := hashPassword p }
  | none => a1

/-- Modelled from the spec: the Manage-Self endpoint (spec section 4.3).
Requires a valid AuthToken identifying the caller (else unauthorized, no
access to any data).  GET returns `{name, email}` of the caller only; PATCH
partially updates name/password (the password, "once set, satisfies a
minimum-length policy (>5 characters) before acceptance; shorter values are
rejected and no account/record is created or mutated", spec section 3) and
persists before responding OK; POST is explicitly disallowed. -/
def manageSelf (db : Store) (auth : Option String) (m : Method)
    (body : List (String × String)) : Response × Store :=
  match resolveToken db auth with
  | none => (⟨401, []⟩, db)
  | some caller =>
    match m with
    | .GET => (⟨200, [("name", caller.name), ("email", caller.email)]⟩, db)
    | .POST => (⟨405, []⟩, db)
    | .PATCH =>
      if (body.lookup "password").all (fun p => 5 < p.length) then
        let caller' := applyPatch caller body
        (⟨200, [("name", caller'.name), ("email", caller'.email)]⟩,
         db.map (fun a => if a.email == caller.email then caller' else a))
      else (badRequest, db)

/-- A well-formed (reachable) store: every account is active, has a valid
email, and a hash derived from some accepted (length > 5) password; emails
are pairwise distinct (the uniqueness invariant of spec section 3). -/
def WFStore (db : Store) : Prop :=
  (∀ a ∈ db, a.isActive = true ∧ validEmail a.email = true ∧
    ∃ p, 5 < p.length ∧ a.passwordHash = hashPassword p) ∧
  db.Pairwise (fun a b => a.email ≠ b.email)

/-- The submitted email and password match some stored account's
credentials. -/
def credentialsMatch (db : Store) (e p : String) : Bool :=
  db.any (fun a => a.email == e && checkPassword a.passwordHash p)

/-- A method definition in a Python class body, abstracted to its name and
the response attribute its status assertion reads (`status_code` for every
test here except the first `test_create_token_no_user`, which reads
`status`; `-` for `setUp`, which asserts nothing). -/
structure PyMethod where
  name : String
  checks : String
deriving Repr, DecidableEq

/-- The class body of `PublicUserApiTests` in
`app/users/test/test_user_api.py`, in source order. -/
def publicUserApiTestsBody : List PyMethod := [
  ⟨"setUp", "-"⟩,
  ⟨"test_create_valid_user_success", "status_code"⟩,
  ⟨"test_user_exists", "status_code"⟩,
  ⟨"test_password_too_short", "status_code"⟩,
  ⟨"test_create_token_for_user", "status_code"⟩,
  ⟨"test_create_token_invalid_credentials", "status_code"⟩,
  ⟨"test_create_token_no_user", "status"⟩,
  ⟨"test_create_token_no_user", "status_code"⟩,
  ⟨"test_create_token_missing_field", "status_code"⟩,
  ⟨"test_retrieve_user_unauthorized", "status_code"⟩]

/-- Python class-body semantics: the body executes top to bottom and each
`def` rebinds its name in the class dictionary, so a lookup returns the
LAST definition with that name. -/
def classAttr (body : List PyMethod) (n : String) : Option PyMethod :=
  body.reverse.find? (fun m => m.name == n)

/-- A concrete stored account, matching the fixture of the test suite. -/
def demoAccount : Account :=
  ⟨"test@husteen.com", hashPassword "testpass", "Tester Name", true, false⟩

/-- A concrete one-account store. -/
def demoDb : Store := [demoAccount]

/-- C10: `PublicUserApiTests` defines `test_create_token_no_user` twice (the
first variant asserts on `res.status`, the second on `res.status_code`), and
under class-body semantics the name is bound to the second variant, so the
first is never reachable through the class dictionary. -/
theorem duplicate_token_no_user_test_overridden :
    ((publicUserApiTestsBody.filter
        (fun m => m.name == "test_create_token_no_user")).length = 2)
    ∧ ((publicUserApiTestsBody.filter
        (fun m => m.name == "test_create_token_no_user")).head?
        = some ⟨"test_create_token_no_user", "status"⟩)
    ∧ (classAttr publicUserApiTestsBody "test_create_token_no_user"
        = some ⟨"test_create_token_no_user", "status_code"⟩)
    ∧ ((⟨"test_create_token_no_user", "status"⟩ : PyMethod)
        ≠ ⟨"test_create_token_no_user", "status_code"⟩) := by
  refine ⟨rfl, rfl, rfl, by decide⟩

/-- The concrete demo store is well-formed. -/
theorem demoDb_wf : WFStore demoDb := by
  constructor
  · intro a ha
    have h : a = demoAccount := by simpa [demoDb] using ha
    subst h
    exact ⟨rfl, by decide, "testpass", by decide, rfl⟩
  · simp [demoDb]

/-- C1: a create-account request with a well-formed email not present in the
store, a password longer than 5 characters, and a name, yields status 201,
a response body without a `password` key, and a stored account whose hash
verifies against the submitted plaintext. -/
theorem create_valid_user_success (db : Store) (e p n : String)
    (he : validEmail e = true) (hp : 5 < p.length)
    (hu : db.all (fun a => a.email != e) = true) :
    (createAccount db e p n).fst.status = 201
    ∧ (createAccount db e p n).fst.body.lookup "password" = none
    ∧ ∃ a ∈ (createAccount db e p n).snd,
        a.email = e ∧ checkPassword a.passwordHash p = true := by
  have hcond : (validEmail e && decide (5 < p.length)
      && db.all (fun a => a.email != e)) = true := by
    simp [he, hp, hu]
  refine ⟨?_, ?_, ?_⟩
  · simp [createAccount, hcond]
  · simp [createAccount, hcond, List.lookup]
  · refine ⟨⟨e, hashPassword p, n, true, false⟩, ?_, rfl, ?_⟩
    · simp [createAccount, hcond]
    · simp [checkPassword]

/-- Witness for C1 at the test suite's concrete payload. -/
theorem create_valid_user_success_witness :
    (createAccount [] "test@husteen.com" "test12345" "Husteen Tester").fst.status = 201
    ∧ (createAccount [] "test@husteen.com" "test12345"
        "Husteen Tester").fst.body.lookup "password" = none
    ∧ ∃ a ∈ (createAccount [] "test@husteen.com" "test12345" "Husteen Tester").snd,
        a.email = "test@husteen.com"
        ∧ checkPassword a.passwordHash "test12345" = true :=
  create_valid_user_success [] "test@husteen.com" "test12345" "Husteen Tester"
    (by decide) (by decide) (by decide)

/-- Verifying a plaintext against the hash of an accepted password forces
the two plaintexts to have the same length. -/
theorem length_of_checkPassword {q p : String}
    (h : checkPassword (hashPassword q) p = true) : p.length = q.length := by
  have hq : hashPassword q = hashPassword p := by
    simpa [checkPassword] using h
  have h2 := congrArg String.length hq
  simp only [hashPassword, String.length_append] at h2
  omega

/-- Whenever the submitted credentials match no stored account (including
every empty-field submission), Authenticate answers with the uniform
bad-request response. -/
theorem authenticate_badRequest_of_not_match (db : Store) (e p : String)
    (hf : credentialsMatch db e p = false) :
    authenticate db e p = badRequest := by
  unfold authenticate
  cases hc : (e == "" || p == "") with
  | true => simp [hc]
  | false =>
    simp only [hc, Bool.false_eq_true, if_false]
    cases hfind : db.find? (fun a => a.email == e) with
    | none => rfl
    | some a =>
      have hmem := List.mem_of_find?_eq_some hfind
      have hbeq := List.find?_some hfind
      have hcp : checkPassword a.passwordHash p = false := by
        cases hcpv : checkPassword a.passwordHash p
        · rfl
        · exfalso
          have hm : credentialsMatch db e p = true :=
            List.any_eq_true.mpr ⟨a, hmem, by simp [hbeq, hcpv]⟩
          rw [hm] at hf
          exact absurd hf (by simp)
      simp [hcp]

/-- C2: on a well-formed store, Authenticate answers 200 with a `token` key
exactly when the submitted email and password match a stored account's
credentials; every non-matching submission — wrong password, unknown email,
or an empty email or password field — gets the bad-request response (status
400, no `token` key). -/
theorem authenticate_token_iff (db : Store) (e p : String) (h : WFStore db) :
    (((authenticate db e p).status = 200
        ∧ ((authenticate db e p).body.lookup "token").isSome = true)
      ↔ credentialsMatch db e p = true)
    ∧ (credentialsMatch db e p = false → authenticate db e p = badRequest) := by
  obtain ⟨hwf, hpw⟩ := h
  refine ⟨?_, authenticate_badRequest_of_not_match db e p⟩
  by_cases hm : credentialsMatch db e p = true
  · rw [hm]
    refine iff_of_true ?_ rfl
    obtain ⟨a, ha, hand⟩ := List.any_eq_true.mp hm
    rw [Bool.and_eq_true] at hand
    obtain ⟨haeb, hcp⟩ := hand
    have hae : a.email = e := eq_of_beq haeb
    obtain ⟨hact, hval, q, hq5, hhq⟩ := hwf a ha
    have hene : (e == "") = false := by
      refine beq_eq_false_iff_ne.mpr ?_
      intro h0
      rw [h0] at hae
      rw [hae] at hval
      exact absurd hval (by decide)
    have hplen : p.length = q.length := by
      rw [hhq] at hcp
      exact length_of_checkPassword hcp
    have hpne : (p == "") = false := by
      refine beq_eq_false_iff_ne.mpr ?_
      intro h0
      rw [h0, String.length_empty] at hplen
      omega
    have hfind : db.find? (fun x => x.email == e) = some a := by
      cases hf : db.find? (fun x => x.email == e) with
      | none =>
        exact absurd haeb (by simpa using List.find?_eq_none.mp hf a ha)
      | some b =>
        have hbmem := List.mem_of_find?_eq_some hf
        have hbeqb := List.find?_some hf
        have hbeq : b.email = e := eq_of_beq (by simpa using hbeqb)
        have hba : b = a := by
          by_contra hne
          have hsym : Symmetric (fun x y : Account => x.email ≠ y.email) := by
            intro x y hxy hyx
            exact hxy hyx.symm
          exact (hpw.forall hsym hbmem ha hne) (hbeq.trans hae.symm)
        rw [hba]
    rw [hhq] at hcp
    simp [authenticate, hene, hpne, hfind, hhq, hcp, hact, List.lookup]
  · have hf := Bool.eq_false_iff.mpr hm
    have hbad := authenticate_badRequest_of_not_match db e p hf
    rw [hbad, hf]
    simp [badRequest]

/-- Witness for C2 at the demo store with its own stored credentials. -/
theorem authenticate_token_iff_witness :
    (((authenticate demoDb "test@husteen.com" "testpass").status = 200
        ∧ ((authenticate demoDb "test@husteen.com"
            "testpass").body.lookup "token").isSome = true)
      ↔ credentialsMatch demoDb "test@husteen.com" "testpass" = true)
    ∧ (credentialsMatch demoDb "test@husteen.com" "testpass" = false
        → authenticate demoDb "test@husteen.com" "testpass" = badRequest) :=
  authenticate_token_iff demoDb "test@husteen.com" "testpass" demoDb_wf

/-- C3: a request against an existing email with a wrong password and a
request for an email with no account receive literally the same response —
the bad-request status 400 and the same (empty) body, so nothing tells the
client which field was wrong. -/
theorem authenticate_no_credential_leak (db : Store) (e1 p1 e2 p2 : String)
    (h1 : ∃ a ∈ db, a.email = e1)
    (h2 : ∀ a ∈ db, a.email = e1 → checkPassword a.passwordHash p1 = false)
    (h3 : ∀ a ∈ db, a.email ≠ e2) :
    authenticate db e1 p1 = authenticate db e2 p2
    ∧ (authenticate db e1 p1).status = 400 := by
  have hf1 : credentialsMatch db e1 p1 = false := by
    refine Bool.eq_false_iff.mpr ?_
    intro hmm
    obtain ⟨a, ha, hand⟩ := List.any_eq_true.mp hmm
    rw [Bool.and_eq_true] at hand
    obtain ⟨hae, hcp⟩ := hand
    rw [h2 a ha (eq_of_beq hae)] at hcp
    exact absurd hcp (by simp)
  have hf2 : credentialsMatch db e2 p2 = false := by
    refine Bool.eq_false_iff.mpr ?_
    intro hmm
    obtain ⟨a, ha, hand⟩ := List.any_eq_true.mp hmm
    rw [Bool.and_eq_true] at hand
    obtain ⟨hae, _⟩ := hand
    exact h3 a ha (eq_of_beq hae)
  have hA := authenticate_badRequest_of_not_match db e1 p1 hf1
  have hB := authenticate_badRequest_of_not_match db e2 p2 hf2
  exact ⟨hA.trans hB.symm, by rw [hA]; rfl⟩

/-- Witness for C3: the test suite's wrong-password and unknown-email
requests against the demo store. -/
theorem authenticate_no_credential_leak_witness :
    authenticate demoDb "test@husteen.com" "passed1"
      = authenticate demoDb "ghost@husteen.com" "testpass"
    ∧ (authenticate demoDb "test@husteen.com" "passed1").status = 400 :=
  authenticate_no_credential_leak demoDb "test@husteen.com" "passed1"
    "ghost@husteen.com" "testpass" (by decide) (by decide) (by decide)

/-- C4: creating an account whose email already exists in the store returns
the bad-request response and leaves the store (hence the existing account's
email, hash, name and flags) unchanged. -/
theorem create_duplicate_email (db : Store) (e p n : String)
    (h : db.any (fun a => a.email == e) = true) :
    createAccount db e p n = (badRequest, db) := by
  obtain ⟨b, hb, hbe⟩ := List.any_eq_true.mp h
  have hall : db.all (fun a => a.email != e) = false := by
    refine Bool.eq_false_iff.mpr ?_
    intro hall
    have := List.all_eq_true.mp hall b hb
    simp only [bne_iff_ne, ne_eq] at this
    exact this (eq_of_beq hbe)
  simp [createAccount, hall]

/-- Witness for C4: re-submitting the demo account's email is rejected and
the store is untouched. -/
theorem create_duplicate_email_witness :
    createAccount demoDb "test@husteen.com" "testpass123" "Other"
      = (badRequest, demoDb) :=
  create_duplicate_email demoDb "test@husteen.com" "testpass123" "Other"
    (by decide)

/-- Counterexample for C5: with an account for `test@husteen.com` already in
the store, a create request for the same email with the short password `pw`
returns 400, yet afterwards an account with the submitted email still exists
in the store — contradicting the claim that no account with the submitted
email exists afterwards. -/
theorem create_short_password_cex :
    (createAccount demoDb "test@husteen.com" "pw" "Name").fst.status = 400
    ∧ ((createAccount demoDb "test@husteen.com" "pw" "Name").snd.any
        (fun a => a.email == "test@husteen.com")) = true := by
  decide

/-- C5 (amended): a create-account request whose password has length at most
5 returns the bad-request response and leaves the store unchanged — so no
account is created or mutated, and if no account with the submitted email
existed before, none exists afterwards. -/
theorem create_short_password_rejected (db : Store) (e p n : String)
    (hp : p.length ≤ 5) :
    createAccount db e p n = (badRequest, db) := by
  have h5 : decide (5 < p.length) = false := by
    simp only [decide_eq_false_iff_not]
    omega
  simp [createAccount, h5]

/-- Witness for the amended C5 at the test suite's concrete payload. -/
theorem create_short_password_rejected_witness :
    createAccount [] "test@husteen.com" "pw" "Name" = (badRequest, []) :=
  create_short_password_rejected [] "test@husteen.com" "pw" "Name" (by decide)

/-- C6: a GET or PATCH request to the self-management endpoint whose bearer
token resolves to no account is answered with status 401 and an empty body,
and the store is untouched. -/
theorem manage_unauthorized (db : Store) (auth : Option String) (m : Method)
    (body : List (String × String)) (hm : m = Method.GET ∨ m = Method.PATCH)
    (h : resolveToken db auth = none) :
    manageSelf db auth m body = (⟨401, []⟩, db) := by
  rcases hm with hm | hm <;> subst hm <;> simp [manageSelf, h]

/-- Witness for C6: an unauthenticated GET against the demo store. -/
theorem manage_unauthorized_witness :
    manageSelf demoDb none Method.GET [] = (⟨401, []⟩, demoDb) :=
  manage_unauthorized demoDb none Method.GET [] (Or.inl rfl) rfl

/-- C7: an authenticated GET to the self-management endpoint returns status
200 and a body that is exactly the `name` and `email` of the account the
caller's token resolves to, with no further keys and no store change. -/
theorem manage_get_profile (db : Store) (auth : Option String) (a : Account)
    (body : List (String × String)) (h : resolveToken db auth = some a) :
    manageSelf db auth Method.GET body
      = (⟨200, [("name", a.name), ("email", a.email)]⟩, db) := by
  simp [manageSelf, h]

/-- Witness for C7: the demo account reads its own profile. -/
theorem manage_get_profile_witness :
    manageSelf demoDb (some (tokenFor "test@husteen.com")) Method.GET []
      = (⟨200, [("name", "Tester Name"), ("email", "test@husteen.com")]⟩,
         demoDb) :=
  manage_get_profile demoDb (some (tokenFor "test@husteen.com")) demoAccount
    [] rfl

/-- C8: an authenticated PATCH with `{name: "new tester", password:
"newtestpass"}` returns status 200; afterwards the caller's stored record
(the account carrying the caller's email) has the new name, and its hash
verifies against the new plaintext password. -/
theorem manage_patch_updates_profile (db : Store) (auth : Option String)
    (a : Account) (h : resolveToken db auth = some a) :
    (manageSelf db auth Method.PATCH
        [("name", "new tester"), ("password", "newtestpass")]).fst.status = 200
    ∧ (∃ a' ∈ (manageSelf db auth Method.PATCH
        [("name", "new tester"), ("password", "newtestpass")]).snd,
        a'.email = a.email)
    ∧ ∀ a' ∈ (manageSelf db auth Method.PATCH
        [("name", "new tester"), ("password", "newtestpass")]).snd,
        a'.email = a.email →
          a'.name = "new tester"
          ∧ checkPassword a'.passwordHash "newtestpass" = true := by
  have hmem : a ∈ db := by
    cases auth with
    | none => simp [resolveToken] at h
    | some t =>
      exact List.mem_of_find?_eq_some (by simpa [resolveToken] using h)
  have hbranch : manageSelf db auth Method.PATCH
      [("name", "new tester"), ("password", "newtestpass")]
      = (⟨200, [("name", "new tester"), ("email", a.email)]⟩,
         db.map (fun x => if x.email == a.email
            then applyPatch a [("name", "new tester"), ("password", "newtestpass")]
            else x)) := by
    unfold manageSelf
    rw [h]
    rfl
  refine ⟨by rw [hbranch], ?_, ?_⟩
  · rw [hbranch]
    refine ⟨applyPatch a [("name", "new tester"), ("password", "newtestpass")],
      ?_, rfl⟩
    have hma := List.mem_map_of_mem
      (fun x => if x.email == a.email
        then applyPatch a [("name", "new tester"), ("password", "newtestpass")]
        else x) hmem
    simpa using hma
  · rw [hbranch]
    intro a' ha' he
    obtain ⟨x, hx, hfx⟩ := List.mem_map.mp ha'
    by_cases hxe : x.email = a.email
    · have hxv : a' = applyPatch a
          [("name", "new tester"), ("password", "newtestpass")] := by
        rw [← hfx]
        simp [hxe]
      rw [hxv]
      exact ⟨rfl, beq_self_eq_true (hashPassword "newtestpass")⟩
    · exfalso
      have hxv : a' = x := by
        rw [← hfx]
        simp [hxe]
      rw [hxv] at he
      exact hxe he

/-- Witness for C8: the demo account patches its own profile. -/
theorem manage_patch_updates_profile_witness :
    (manageSelf demoDb (some (tokenFor "test@husteen.com")) Method.PATCH
        [("name", "new tester"), ("password", "newtestpass")]).fst.status = 200
    ∧ (∃ a' ∈ (manageSelf demoDb (some (tokenFor "test@husteen.com"))
        Method.PATCH
        [("name", "new tester"), ("password", "newtestpass")]).snd,
        a'.email = "test@husteen.com")
    ∧ ∀ a' ∈ (manageSelf demoDb (some (tokenFor "test@husteen.com"))
        Method.PATCH
        [("name", "new tester"), ("password", "newtestpass")]).snd,
        a'.email = "test@husteen.com" →
          a'.name = "new tester"
          ∧ checkPassword a'.passwordHash "newtestpass" = true :=
  manage_patch_updates_profile demoDb (some (tokenFor "test@husteen.com"))
    demoAccount rfl

/-- Counterexample for C9: a POST to the self-management endpoint carrying
no token is answered with status 401, not 405 — the claim's universal "every
POST request ... returns 405" fails on unauthenticated POSTs, because the
endpoint's authentication requirement is checked first. -/
theorem manage_post_unauthenticated_cex :
    (manageSelf demoDb none Method.POST []).fst.status = 401
    ∧ (manageSelf demoDb none Method.POST []).fst.status ≠ 405 := by
  decide

/-- C9 (amended): an authenticated POST to the self-management endpoint,
with any body, returns status 405 (method not allowed) and performs no
mutation of any account; an unauthenticated POST is instead rejected with
401 and likewise mutates nothing. -/
theorem manage_post_not_allowed (db : Store) (auth : Option String)
    (a : Account) (body : List (String × String))
    (h : resolveToken db auth = some a) :
    manageSelf db auth Method.POST body = (⟨405, []⟩, db) := by
  simp [manageSelf, h]

/-- Witness for the amended C9: the demo account POSTs to the endpoint. -/
theorem manage_post_not_allowed_witness :
    manageSelf demoDb (some (tokenFor "test@husteen.com")) Method.POST
      [("name", "x")] = (⟨405, []⟩, demoDb) :=
  manage_post_not_allowed demoDb (some (tokenFor "test@husteen.com"))
    demoAccount [("name", "x")] rfl

end UserApi
